import Mathlib

/-
Verification of the Workflow State Machine & Recovery Engine of the
DoD-v2 repository (backend/app): a shallow embedding of the LangGraph
code-analysis workflow (nodes, conditional edges, checkpoint store,
SQL executor) as Lean definitions, followed by theorems settling the
frozen claims about it.

External effects (the LLM, the filesystem, the Python `exec` of
generated source, SQLite) are abstracted as oracle functions supplied
in an environment record; everything the repository's own code does
with the oracle answers is modelled faithfully, branch by branch.
-/

namespace DoDv2

/-! ## Execution sandbox (`backend/app/utils/code_executor.py`) -/

/-- Result dictionary of `execute_code_safely` (the `locals` entry, a
dictionary of arbitrary Python objects, is not modelled). -/
structure ExecResult where
  success : Bool
  output : String
  error : String
  deriving Repr, DecidableEq

/-- Outcome of `exec`-ing a block of Python source: either it runs to
completion with captured stdout, or it raises; on a raise the oracle
supplies the formatted `type: message\ntraceback` text and the output
emitted before the failure. -/
inductive PyOutcome where
  | ok (output : String)
  | raised (errText : String) (output : String)
  deriving Repr, DecidableEq

/-- Lowercasing as Python `str.lower`, character by character. -/
def pyLower (s : String) : String := String.mk (s.toList.map Char.toLower)

/-- Whitespace trimming on both ends, as Python `str.strip()`. -/
def stripChars (l : List Char) : List Char :=
  ((l.dropWhile Char.isWhitespace).reverse.dropWhile Char.isWhitespace).reverse

/-- Whitespace trimming of a string. -/
def pyStrip (s : String) : String := String.mk (stripChars s.toList)

/-- Splitting at newline characters (`str.splitlines` for `\n`-separated
text). -/
def splitNl : List Char → List (List Char)
  | [] => [[]]
  | c :: cs =>
    match splitNl cs with
    | [] => []
    | l :: ls => if c = '\n' then [] :: l :: ls else (c :: l) :: ls

/-- Joining lines back with `\n` (`"\n".join`). -/
def joinNl : List (List Char) → List Char
  | [] => []
  | [l] => l
  | l :: ls => l ++ '\n' :: joinNl ls

/-- Left-to-right non-overlapping replacement, fueled for structural
termination (the fuel is the input length, which suffices because each
step consumes at least one character). -/
def replaceSeqAux (pat repl : List Char) : Nat → List Char → List Char
  | 0, l => l
  | _ + 1, [] => []
  | fuel + 1, c :: cs =>
    if pat.isPrefixOf (c :: cs) then
      repl ++ replaceSeqAux pat repl fuel (cs.drop (pat.length - 1))
    else c :: replaceSeqAux pat repl fuel cs

/-- Python `str.replace` on character lists. -/
def replaceSeq (pat repl l : List Char) : List Char :=
  replaceSeqAux pat repl l.length l

/-- Matches the regex `^\s*file_path\s*=\s*.*` of `_sanitize_code`. -/
def isFilePathAssign (line : List Char) : Bool :=
  let rest := line.dropWhile Char.isWhitespace
  ("file_path".toList).isPrefixOf rest &&
    (((rest.drop 9).dropWhile Char.isWhitespace).head? = some '=' : Bool)

/-- Model of `_sanitize_code`: drops `file_path = ...` lines and turns
the quoted literal `'file_path'` inside `pd.read_csv`/`pd.read_excel`
calls back into the injected variable (the regex's inner whitespace
tolerance is elided; no claim depends on it). -/
def sanitizeCode (code : String) : String :=
  let kept := (splitNl code.toList).filter (fun l => !isFilePathAssign l)
  let joined := joinNl kept
  let j1 := replaceSeq "pd.read_csv('file_path'".toList
    "pd.read_csv(file_path".toList joined
  let j2 := replaceSeq "pd.read_csv(\"file_path\"".toList
    "pd.read_csv(file_path".toList j1
  let j3 := replaceSeq "pd.read_excel('file_path'".toList
    "pd.read_excel(file_path".toList j2
  String.mk (replaceSeq "pd.read_excel(\"file_path\"".toList
    "pd.read_excel(file_path".toList j3)

/-- Model of `execute_code_safely(code, file_path, timeout=30)`: the
source is sanitized and handed to the Python `exec` boundary (the
oracle `ex`); the result dictionary is assembled exactly as in the
source.  The `timeout` parameter is accepted and, as in the source,
never used. -/
def execute_code_safely (ex : String → String → PyOutcome)
    (code file_path : String) (timeout : Nat) : ExecResult :=
  match ex (sanitizeCode code) file_path with
  | .ok out => { success := true, output := out, error := "" }
  | .raised errText out => { success := false, output := out, error := errText }

/-! ## Round ledger and workflow state (`code_analysis_nodes.AnalysisState`) -/

/-- One entry of `analysis_rounds`. -/
structure RoundRecord where
  round : Nat
  task : String
  code : String
  execution_result : ExecResult
  timestamp : String
  deriving Repr, DecidableEq

/-- The LangGraph state dictionary.  `csv_info` is kept abstract as its
serialized form; `execution_result = none` models the initial empty
dict. -/
structure AnalysisState where
  csv_path : String
  csv_info : String
  prompt : String
  generated_code : String
  execution_result : Option ExecResult
  error : Option String
  messages : List String
  analysis_rounds : List RoundRecord
  current_round : Nat
  analysis_plan : List String
  completed_analyses : List String
  temp_report_path : String
  should_continue : Bool
  has_execution_error : Bool
  error_retry_count : Nat
  user_intervention_mode : Option String
  paused_for_fix : Bool
  deriving Repr, DecidableEq

/-! ## Checkpoint store (`backend/app/utils/state_manager.py`) -/

/-- The JSON document written by `save_state`: exactly the thirteen
state fields it serializes, plus `saved_at`.  The four recovery fields
(`has_execution_error`, `error_retry_count`, `user_intervention_mode`,
`paused_for_fix`) are absent, as in the source. -/
structure SavedState where
  csv_path : String
  csv_info : String
  prompt : String
  generated_code : String
  execution_result : Option ExecResult
  error : Option String
  messages : List String
  analysis_rounds : List RoundRecord
  current_round : Nat
  analysis_plan : List String
  completed_analyses : List String
  temp_report_path : String
  should_continue : Bool
  saved_at : String
  deriving Repr, DecidableEq

/-- Model of `save_state` (the fields it puts into the JSON file). -/
def save_state (s : AnalysisState) (now : String) : SavedState :=
  { csv_path := s.csv_path
    csv_info := s.csv_info
    prompt := s.prompt
    generated_code := s.generated_code
    execution_result := s.execution_result
    error := s.error
    messages := s.messages
    analysis_rounds := s.analysis_rounds
    current_round := s.current_round
    analysis_plan := s.analysis_plan
    completed_analyses := s.completed_analyses
    temp_report_path := s.temp_report_path
    should_continue := s.should_continue
    saved_at := now }

/-- Model of `load_state` on a well-formed checkpoint file: JSON
round-trips the saved document unchanged. -/
def load_state (doc : SavedState) : SavedState := doc

/-- The `AnalysisState` a consumer of a loaded checkpoint observes:
keys present in the document keep their values, keys absent from it
read back as the `dict.get` defaults used throughout the nodes
(`False`, `0`, `None`, `False`). -/
def stateOfSaved (doc : SavedState) : AnalysisState :=
  { csv_path := doc.csv_path
    csv_info := doc.csv_info
    prompt := doc.prompt
    generated_code := doc.generated_code
    execution_result := doc.execution_result
    error := doc.error
    messages := doc.messages
    analysis_rounds := doc.analysis_rounds
    current_round := doc.current_round
    analysis_plan := doc.analysis_plan
    completed_analyses := doc.completed_analyses
    temp_report_path := doc.temp_report_path
    should_continue := doc.should_continue
    has_execution_error := false
    error_retry_count := 0
    user_intervention_mode := none
    paused_for_fix := false }

/-! ## SQL executor (`backend/app/utils/sql_executor.py`) -/

/-- A fetched row, as the dictionary `dict(row)`. -/
abbrev SqlRow := List (String × String)

/-- Result dictionary of `execute_sql_safely`. -/
structure SqlResult where
  success : Bool
  data : List SqlRow
  columns : List String
  row_count : Nat
  error : String
  deriving Repr, DecidableEq

/-- Word characters of the regex `\b` boundary (ASCII `\w`). -/
def isWordChar (c : Char) : Bool := c.isAlphanum || c = '_'

/-- Whitespace matched by the regex class `\s`. -/
def isPySpace (c : Char) : Bool :=
  c = ' ' || c = '\t' || c = '\n' || c = '\r' || c = '\x0b' || c = '\x0c'

/-- Substring containment on character lists (Python's `in`). -/
def containsSeq (pat : List Char) : List Char → Bool
  | [] => pat.isPrefixOf []
  | c :: cs => pat.isPrefixOf (c :: cs) || containsSeq pat cs

/-- A `\b` boundary next to the optional adjacent character. -/
def boundaryOk : Option Char → Bool
  | none => true
  | some c => !isWordChar c

/-- Occurrence of `\bkw\b` in the text, scanning with the previous
character carried along. -/
def containsWordAux (kw : List Char) : Option Char → List Char → Bool
  | _, [] => false
  | prev, c :: cs =>
    (boundaryOk prev && kw.isPrefixOf (c :: cs) &&
      boundaryOk (((c :: cs).drop kw.length).head?)) ||
    containsWordAux kw (some c) cs

/-- `re.search(r'\b' + kw + r'\b', s)` as a Boolean. -/
def containsWord (s kw : List Char) : Bool := containsWordAux kw none s

/-- `re.search(';\s*' ++ w, s)`. -/
def semiThen (w : List Char) : List Char → Bool
  | [] => false
  | c :: cs => (c = ';' && w.isPrefixOf (cs.dropWhile isPySpace)) || semiThen w cs

/-- `re.search('union.*select', s)` (the dot does not cross newlines). -/
def unionSelect : List Char → Bool
  | [] => false
  | c :: cs =>
    (("union".toList).isPrefixOf (c :: cs) &&
      containsSeq "select".toList (((c :: cs).drop 5).takeWhile (fun a => a ≠ '\n'))) ||
    unionSelect cs

/-- Occurrence of a `/* ... */` block comment on a single line
(the regex `/\*.*\*/`). -/
def blockComment : List Char → Bool
  | [] => false
  | c :: cs =>
    (("/*".toList).isPrefixOf (c :: cs) &&
      containsSeq "*/".toList (((c :: cs).drop 2).takeWhile (fun a => a ≠ '\n'))) ||
    blockComment cs

/-- The danger list of `validate_sql_safety`, in source order. -/
def dangerousKeywords : List String :=
  ["drop", "delete", "truncate", "update", "insert", "alter", "create",
   "grant", "revoke", "exec", "execute", "pragma"]

/-- Model of `validate_sql_safety`. -/
def validate_sql_safety (sql : String) : Bool × String :=
  let sqlLower := stripChars (pyLower sql).toList
  match dangerousKeywords.find? (fun k => containsWord sqlLower k.toList) with
  | some k => (false, "检测到危险操作: " ++ k.toUpper)
  | none =>
    if semiThen "drop".toList sqlLower || semiThen "delete".toList sqlLower ||
        unionSelect sqlLower || containsSeq "--".toList sqlLower ||
        blockComment sqlLower then
      (false, "检测到潜在的 SQL 注入模式")
    else if !(("select".toList).isPrefixOf sqlLower ||
              ("with".toList).isPrefixOf sqlLower) then
      (false, "只允许 SELECT 查询")
    else (true, "")

/-- Python `sql.rstrip(';')`. -/
def pyRstripSemi (s : String) : String :=
  String.mk ((s.toList.reverse.dropWhile (fun c => c = ';')).reverse)

/-- The query text actually executed: `LIMIT` is appended when the
lowercased, stripped SQL does not contain it as a substring, after
removing trailing semicolons (lines 94-99 of `sql_executor.py`). -/
def addLimit (sql : String) (limit : Nat) : String :=
  if containsSeq "limit".toList (stripChars (pyLower sql).toList) then sql
  else pyStrip (pyRstripSemi sql) ++ " LIMIT " ++ toString limit

/-- The SQLite boundary: whether the database file exists, and what
executing a query text against it yields (`.error` models a raised
`sqlite3.Error`). -/
structure SqlEnv where
  dbExists : String → Bool
  runQuery : String → String → Except String (List String × List SqlRow)

/-- Model of `execute_sql_safely(sql, db_path, limit=1000)`. -/
def execute_sql_safely (env : SqlEnv) (sql db_path : String) (limit : Nat) :
    SqlResult :=
  if !env.dbExists db_path then
    { success := false, data := [], columns := [], row_count := 0,
      error := "数据库文件不存在: " ++ db_path }
  else
    match validate_sql_safety sql with
    | (false, msg) =>
      { success := false, data := [], columns := [], row_count := 0,
        error := "SQL 安全性验证失败: " ++ msg }
    | (true, _) =>
      match env.runQuery (addLimit sql limit) db_path with
      | .error e =>
        { success := false, data := [], columns := [], row_count := 0,
          error := "SQLite 错误: " ++ e }
      | .ok (cols, rows) =>
        { success := true, data := rows, columns := cols,
          row_count := rows.length, error := "" }

/-! ## Workflow nodes (`backend/app/nodes/code_analysis_nodes.py`)

The external collaborators of each node are collected in an
environment record; every oracle takes the global step counter so that
arbitrary (including non-deterministic-looking) behaviour across
retries and rounds is representable. -/

/-- Response of the continuation LLM in `decide_continue_node`:
`unavailable` models the API call raising, `unparseable` a response
whose JSON cannot be decoded, `parsed d r` a decoded decision. -/
inductive OracleResp where
  | unavailable
  | unparseable
  | parsed (decision reason : String)
  deriving Repr, DecidableEq

/-- The engine's environment: CSV reading, the planner, generator,
repairer and continuation LLM calls, the Python `exec` boundary, the
report writer and the clock. -/
structure Env where
  readCsv : Nat → String → Option String
  planTasks : Nat → Option (List String)
  tmpReport : Nat → String
  genCode : Nat → Option String
  execPy : Nat → String → String → PyOutcome
  repair : Nat → Bool × String × String
  oracle : Nat → OracleResp
  reportUpd : Nat → Option String
  finalReport : Nat → Option String
  now : Nat → String

/-- Node 1, `read_csv_info_node`: reads the CSV and returns a freshly
initialized state dictionary (both branches rebuild every field). -/
def read_csv_info_node (env : Env) (n : Nat) (s : AnalysisState) :
    AnalysisState :=
  match env.readCsv n s.csv_path with
  | some info =>
    { csv_path := s.csv_path, csv_info := info, prompt := "",
      generated_code := "", execution_result := none, error := none,
      messages := ["成功读取 CSV 文件"],
      analysis_rounds := [], current_round := 0, analysis_plan := [],
      completed_analyses := [], temp_report_path := "",
      should_continue := true, has_execution_error := false,
      error_retry_count := 0, user_intervention_mode := none,
      paused_for_fix := false }
  | none =>
    { csv_path := s.csv_path, csv_info := "", prompt := "",
      generated_code := "", execution_result := none,
      error := some "读取 CSV 文件失败",
      messages := ["读取 CSV 文件失败"],
      analysis_rounds := [], current_round := 0, analysis_plan := [],
      completed_analyses := [], temp_report_path := "",
      should_continue := false, has_execution_error := false,
      error_retry_count := 0, user_intervention_mode := none,
      paused_for_fix := false }

/-- Node 1.5, `plan_analysis_node`: skipped on a prior error; otherwise
stores the plan produced by the LLM (a JSON-decoding failure inside the
node already falls back to the default plan, so `planTasks` returning
`some` covers it; `none` models the call raising). -/
def plan_analysis_node (env : Env) (n : Nat) (s : AnalysisState) :
    AnalysisState :=
  if s.error.isSome then s
  else
    match env.planTasks n with
    | some plan =>
      { s with analysis_plan := plan, temp_report_path := env.tmpReport n,
               messages := s.messages ++ ["规划了分析任务"] }
    | none =>
      { s with error := some "规划分析任务失败", should_continue := false,
               messages := s.messages ++ ["规划分析任务失败"] }

/-- Node 2, `generate_code_node`: increments the round counter, then
either generates code for the planned task, fast-paths out when the
plan is exhausted (leaving `current_round` at its old value), or
records the LLM failure. -/
def generate_code_node (env : Env) (n : Nat) (s : AnalysisState) :
    AnalysisState :=
  let r := s.current_round + 1
  if s.error.isSome then s
  else if r ≤ s.analysis_plan.length then
    match env.genCode n with
    | some code =>
      { s with current_round := r, prompt := "<generation prompt>",
               generated_code := code,
               messages := s.messages ++ ["生成了分析代码"] }
    | none =>
      { s with current_round := r, prompt := "<generation prompt>",
               generated_code := "", error := some "LLM 调用失败",
               should_continue := false,
               messages := s.messages ++ ["LLM 调用失败"] }
  else
    { s with should_continue := false,
             messages := s.messages ++ ["所有计划任务已完成"] }

/-- Python list indexing `l[i]` (negative indices wrap once; out of
range is `none`, i.e. an `IndexError`). -/
def pyIndex (l : List String) (i : Int) : Option String :=
  if 0 ≤ i then l.get? i.toNat
  else if (-i).toNat ≤ l.length then l.get? (l.length - (-i).toNat)
  else none

/-- The `current_task` lookup of `execute_code_node`:
`analysis_plan[current_round - 1] if current_round <= len(analysis_plan)
else "未知任务"`; `none` is the lookup raising `IndexError`. -/
def taskForRound (plan : List String) (round : Nat) : Option String :=
  if round ≤ plan.length then pyIndex plan ((round : Int) - 1)
  else some "未知任务"

/-- Node 3, `execute_code_node`: runs the generated code through
`execute_code_safely` (timeout 30), appends a `RoundRecord` for this
attempt, updates `completed_analyses` on success and the error flags
on failure.  A raised `IndexError` on the task lookup lands in the
node's `except` branch. -/
def execute_code_node (env : Env) (n : Nat) (s : AnalysisState) :
    AnalysisState :=
  if s.error.isSome then s
  else if s.generated_code = "" then
    { s with error := some "没有生成的代码可执行", should_continue := false,
             messages := s.messages ++ ["没有生成的代码可执行"] }
  else
    let result := execute_code_safely (env.execPy n) s.generated_code s.csv_path 30
    match taskForRound s.analysis_plan s.current_round with
    | none =>
      { s with execution_result := some { success := false, output := "",
                                          error := "IndexError" },
               error := some "执行代码时出错: IndexError",
               has_execution_error := true, should_continue := false,
               messages := s.messages ++ ["执行代码时出错"] }
    | some task =>
      let record : RoundRecord :=
        { round := s.current_round, task := task, code := s.generated_code,
          execution_result := result, timestamp := env.now n }
      { s with execution_result := some result,
               analysis_rounds := s.analysis_rounds ++ [record],
               completed_analyses :=
                 if result.success then s.completed_analyses ++ [task]
                 else s.completed_analyses,
               error := if result.success then none else some result.error,
               has_execution_error := !result.success,
               messages := s.messages ++
                 [if result.success then "执行成功" else "执行失败"] }

/-- Node 3.5, `handle_error_node`: the automated default strategy.
While `error_retry_count < MAX_RETRY` (3) it chooses `auto_fix` and
calls the repairer; a usable fix re-arms execution and increments the
counter, an unusable one falls back to `skip` (resetting the counter
and clearing `has_execution_error` but — as in the source — not
`error`).  At the ceiling it chooses `skip`, also clearing `error`.
The `manual_fix` branch of the source is dead code on this path
(`user_choice` is only ever `auto_fix` or `skip`). -/
def handle_error_node (env : Env) (n : Nat) (s : AnalysisState) :
    AnalysisState :=
  if s.error_retry_count < 3 then
    let rep := env.repair n
    if rep.1 then
      { s with generated_code := rep.2.1, error := none,
               has_execution_error := false,
               error_retry_count := s.error_retry_count + 1,
               user_intervention_mode := some "auto_fix",
               messages := s.messages ++ ["代码已自动修复，准备重新执行"] }
    else
      { s with has_execution_error := false, error_retry_count := 0,
               user_intervention_mode := some "skip",
               messages := s.messages ++ ["自动修复失败，跳过本轮"] }
  else
    { s with has_execution_error := false, error := none,
             error_retry_count := 0, user_intervention_mode := some "skip",
             messages := s.messages ++ ["已达到最大重试次数，跳过本轮"] }

/-- Node 4, `update_temp_report_node`: failures are logged, not
fatal. -/
def update_temp_report_node (env : Env) (n : Nat) (s : AnalysisState) :
    AnalysisState :=
  match env.reportUpd n with
  | some p =>
    { s with temp_report_path := p,
             messages := s.messages ++ ["分析结果已写入临时报告"] }
  | none => { s with messages := s.messages ++ ["更新临时报告失败"] }

/-- Node 5, `decide_continue_node`: stops on a pending error, at the
`MAX_ROUNDS` (5) ceiling, or once the plan is exhausted; only then is
the continuation LLM consulted.  A raising call falls back to
`current_round < len(analysis_plan)`; an unparseable response defaults
the decision to `continue`. -/
def decide_continue_node (env : Env) (n : Nat) (s : AnalysisState) :
    AnalysisState :=
  if s.error.isSome then { s with should_continue := false }
  else if 5 ≤ s.current_round then
    { s with should_continue := false,
             messages := s.messages ++ ["已达到最大轮次上限"] }
  else if s.analysis_plan.length ≤ s.current_round then
    { s with should_continue := false,
             messages := s.messages ++ ["所有计划任务已完成"] }
  else
    match env.oracle n with
    | .unavailable =>
      { s with should_continue :=
                 decide (s.current_round < s.analysis_plan.length),
               messages := s.messages ++ ["决策失败，根据计划继续"] }
    | .unparseable =>
      { s with should_continue := true,
               messages := s.messages ++ ["决策解析失败，默认继续"] }
    | .parsed d reason =>
      { s with should_continue := (d == "continue"),
               messages := s.messages ++
                 [if d == "continue" then "LLM决策：继续分析"
                  else "LLM决策：停止分析 " ++ reason] }

/-- Node 6, `final_summary_node`. -/
def final_summary_node (env : Env) (n : Nat) (s : AnalysisState) :
    AnalysisState :=
  match env.finalReport n with
  | some p =>
    { s with messages := s.messages ++ ["分析完成", p] }
  | none =>
    { s with error := some "生成最终报告失败",
             messages := s.messages ++ ["生成最终报告失败"] }

/-! ## The compiled graph (`backend/app/graphs/code_analysis_graph.py`) -/

/-- Graph positions; `done` is LangGraph's `END`. -/
inductive Node where
  | read_csv | plan | gen | exec | herr | report | decide | final | done
  deriving Repr, DecidableEq

/-- A machine configuration: current node, state, and global step
counter (used to index the oracles). -/
structure Config where
  node : Node
  st : AnalysisState
  tick : Nat
  deriving Repr

/-- One LangGraph superstep of `create_analysis_graph`: run the node,
then follow its (conditional) edge on the updated state.  The routing
functions are `check_execution_error`, `after_error_handling` and
`should_continue_analysis` of the source. -/
def step (env : Env) (c : Config) : Config :=
  match c.node with
  | .read_csv => ⟨.plan, read_csv_info_node env c.tick c.st, c.tick + 1⟩
  | .plan => ⟨.gen, plan_analysis_node env c.tick c.st, c.tick + 1⟩
  | .gen => ⟨.exec, generate_code_node env c.tick c.st, c.tick + 1⟩
  | .exec =>
    let s := execute_code_node env c.tick c.st
    ⟨if s.has_execution_error then .herr else .report, s, c.tick + 1⟩
  | .herr =>
    let s := handle_error_node env c.tick c.st
    ⟨if s.paused_for_fix then .final
      else if s.user_intervention_mode = some "auto_fix" then .exec
      else .decide, s, c.tick + 1⟩
  | .report => ⟨.decide, update_temp_report_node env c.tick c.st, c.tick + 1⟩
  | .decide =>
    let s := decide_continue_node env c.tick c.st
    ⟨if s.should_continue then .gen else .final, s, c.tick + 1⟩
  | .final => ⟨.done, final_summary_node env c.tick c.st, c.tick + 1⟩
  | .done => c

/-- Iterated supersteps. -/
def runFrom (env : Env) (c : Config) : Nat → Config
  | 0 => c
  | k + 1 => step env (runFrom env c k)

/-- The initial state of `run_analysis`. -/
def initState (csvPath : String) : AnalysisState :=
  { csv_path := csvPath, csv_info := "", prompt := "",
    generated_code := "", execution_result := none, error := none,
    messages := [], analysis_rounds := [], current_round := 0,
    analysis_plan := [], completed_analyses := [], temp_report_path := "",
    should_continue := true, has_execution_error := false,
    error_retry_count := 0, user_intervention_mode := none,
    paused_for_fix := false }

/-- `app.invoke(initial_state)` starts at the entry point. -/
def initConfig (csvPath : String) : Config :=
  ⟨.read_csv, initState csvPath, 0⟩

/-! ## Resume (`resume_analysis` of `code_analysis_graph.py`) -/

/-- The state `resume_analysis` hands to `app.invoke`: the loaded
checkpoint (recovery fields read back as defaults), optionally with
the replacement source executed and, on success, recorded; finally the
paused flag is cleared and `should_continue` re-enabled.  (Python
treats an empty `fixed_code` as absent; `none` covers both.) -/
def resumeStart (env : Env) (doc : SavedState) (fixed_code : Option String) :
    AnalysisState :=
  let saved := stateOfSaved (load_state doc)
  let s :=
    match fixed_code with
    | none => saved
    | some fc =>
      let result := execute_code_safely (env.execPy 0) fc saved.csv_path 30
      if result.success then
        let task :=
          if 0 < saved.current_round ∧
              saved.current_round ≤ saved.analysis_plan.length then
            saved.analysis_plan.getD (saved.current_round - 1) "未知任务"
          else "未知任务"
        let record : RoundRecord :=
          { round := saved.current_round, task := task, code := fc,
            execution_result := result, timestamp := doc.saved_at }
        { saved with
            analysis_rounds := saved.analysis_rounds ++ [record],
            completed_analyses := saved.completed_analyses ++ [task],
            generated_code := fc, execution_result := some result,
            error := none, has_execution_error := false }
      else
        { saved with error := some result.error, has_execution_error := true }
  { s with paused_for_fix := false, should_continue := true }

/-- `resume_analysis` then calls `app.invoke(saved_state)` on the
compiled graph, which begins at the entry point `read_csv_info`. -/
def resume_analysis (env : Env) (doc : SavedState)
    (fixed_code : Option String) (k : Nat) : Config :=
  runFrom env ⟨.read_csv, resumeStart env doc fixed_code, 1⟩ k

/-! ## Claim C1 — checkpoint round-trip -/

/-- A state paused for a manual fix mid-retry, as `handle_error_node`'s
`manual_fix` branch would produce it. -/
def pausedState : AnalysisState :=
  { initState "data.csv" with
      current_round := 1, analysis_plan := ["任务1"],
      generated_code := "bad code", error := some "ValueError: boom",
      has_execution_error := true, error_retry_count := 2,
      user_intervention_mode := some "manual_fix", paused_for_fix := true }

/-- C1, counterexample: the checkpoint written by `save_state` does not
carry the RecoveryState fields, so loading it back yields the `.get`
defaults, not the saved values — at this concrete paused state the
round-trip loses the paused flag, the retry count, the intervention
mode and the has-error flag. -/
theorem c1_roundtrip_counterexample :
    (stateOfSaved (load_state (save_state pausedState "2025-01-01"))).paused_for_fix
        = false ∧
      pausedState.paused_for_fix = true ∧
      (stateOfSaved (load_state (save_state pausedState "2025-01-01"))).error_retry_count
        = 0 ∧
      pausedState.error_retry_count = 2 ∧
      stateOfSaved (load_state (save_state pausedState "2025-01-01")) ≠ pausedState :=
  ⟨rfl, rfl, rfl, rfl, by decide⟩

/-- C1, amended: `load_state ∘ save_state` restores exactly the
thirteen fields `save_state` serializes; the four RecoveryState fields
are not serialized and read back as their defaults (`False`, `0`,
`None`, `False`). -/
theorem c1_roundtrip_amended (s : AnalysisState) (now : String) :
    (stateOfSaved (load_state (save_state s now))).csv_path = s.csv_path ∧
    (stateOfSaved (load_state (save_state s now))).csv_info = s.csv_info ∧
    (stateOfSaved (load_state (save_state s now))).prompt = s.prompt ∧
    (stateOfSaved (load_state (save_state s now))).generated_code = s.generated_code ∧
    (stateOfSaved (load_state (save_state s now))).execution_result = s.execution_result ∧
    (stateOfSaved (load_state (save_state s now))).error = s.error ∧
    (stateOfSaved (load_state (save_state s now))).messages = s.messages ∧
    (stateOfSaved (load_state (save_state s now))).analysis_rounds = s.analysis_rounds ∧
    (stateOfSaved (load_state (save_state s now))).current_round = s.current_round ∧
    (stateOfSaved (load_state (save_state s now))).analysis_plan = s.analysis_plan ∧
    (stateOfSaved (load_state (save_state s now))).completed_analyses = s.completed_analyses ∧
    (stateOfSaved (load_state (save_state s now))).temp_report_path = s.temp_report_path ∧
    (stateOfSaved (load_state (save_state s now))).should_continue = s.should_continue ∧
    (stateOfSaved (load_state (save_state s now))).has_execution_error = false ∧
    (stateOfSaved (load_state (save_state s now))).error_retry_count = 0 ∧
    (stateOfSaved (load_state (save_state s now))).user_intervention_mode = none ∧
    (stateOfSaved (load_state (save_state s now))).paused_for_fix = false :=
  ⟨rfl, rfl, rfl, rfl, rfl, rfl, rfl, rfl, rfl, rfl, rfl, rfl, rfl, rfl, rfl,
    rfl, rfl⟩

/-! ## Claim C9 — timeout is silently ignored -/

/-- C9: `execute_code_safely` accepts a `timeout` argument but its
result is identical for any two timeout values, for every exec
boundary, source text and file path — the parameter is never consulted
(the known defect flagged by the spec). -/
theorem c9_timeout_ignored (ex : String → String → PyOutcome)
    (code file_path : String) (t1 t2 : Nat) :
    execute_code_safely ex code file_path t1 =
      execute_code_safely ex code file_path t2 := rfl

/-! ## Claim C5 — unusable repair skips but leaves the stale error -/

/-- An environment whose repair capability never returns a usable
source (`analyze_and_fix_code` answering `(False, "", ...)`). -/
def envNoFix : Env :=
  { readCsv := fun _ _ => some "info"
    planTasks := fun _ => some ["任务1"]
    tmpReport := fun _ => "tmp.md"
    genCode := fun _ => some "bad code"
    execPy := fun _ _ _ => .raised "ValueError: boom" ""
    repair := fun _ => (false, "", "无法解析 LLM 响应")
    oracle := fun _ => .parsed "continue" ""
    reportUpd := fun _ => some "tmp.md"
    finalReport := fun _ => some "final.md"
    now := fun _ => "2025-01-01" }

/-- The failed-round state reaching `handle_error_node` in that run. -/
def failedRoundState : AnalysisState :=
  { initState "data.csv" with
      current_round := 1, analysis_plan := ["任务1"],
      generated_code := "bad code", error := some "ValueError: boom",
      has_execution_error := true, error_retry_count := 0 }

/-- C5: when repair returns no usable source the node does fall back to
`skip` with `error_retry_count` reset, but — contradicting the claim
and the spec — `error` is left set, so the following
`decide_continue_node` stops the run on the stale error instead of
weighing further rounds. -/
theorem c5_unusable_repair_keeps_stale_error :
    (handle_error_node envNoFix 0 failedRoundState).user_intervention_mode
        = some "skip" ∧
      (handle_error_node envNoFix 0 failedRoundState).error_retry_count = 0 ∧
      (handle_error_node envNoFix 0 failedRoundState).has_execution_error = false ∧
      (handle_error_node envNoFix 0 failedRoundState).error
        = some "ValueError: boom" ∧
      (decide_continue_node envNoFix 1
          (handle_error_node envNoFix 0 failedRoundState)).should_continue
        = false :=
  ⟨rfl, rfl, rfl, rfl, rfl⟩

/-! ## Claim C4 — round-scoped retry counter -/

/-- An environment whose first generated code fails once, whose repair
succeeds, and whose oracle always continues: round 1 succeeds after one
auto-fix retry. -/
def envRetryLeak : Env :=
  { readCsv := fun _ _ => some "info"
    planTasks := fun _ => some ["任务1", "任务2"]
    tmpReport := fun _ => "tmp.md"
    genCode := fun n => if n = 2 then some "c1" else some "c2"
    execPy := fun _ code _ => if code = "c1" then .raised "E1" "" else .ok "out"
    repair := fun _ => (true, "f1", "fixed")
    oracle := fun _ => .parsed "continue" ""
    reportUpd := fun _ => some "tmp.md"
    finalReport := fun _ => some "final.md"
    now := fun _ => "ts" }

/-- C4, counterexample: in the `envRetryLeak` run, round 1 fails once,
is auto-fixed (`error_retry_count` becomes 1) and then succeeds; the
engine moves on, and at the start of round 2 (nine supersteps in, at
the `execute_code` node with `current_round = 2`) the retry counter is
still 1 — the counter is not reset when a round completes by
success. -/
theorem c4_reset_counterexample :
    (runFrom envRetryLeak (initConfig "data.csv") 9).node = Node.exec ∧
      (runFrom envRetryLeak (initConfig "data.csv") 9).st.current_round = 2 ∧
      (runFrom envRetryLeak (initConfig "data.csv") 9).st.error_retry_count = 1 :=
  by decide

/-- C4, amended: `error_retry_count` is reset to 0 when a round
resolves by skip — both when the repairer returns no usable source and
when the retry ceiling is reached — but a successful execution leaves
it unchanged, so a round that succeeds after k auto-fix retries hands
the next round a counter of k, not 0. -/
theorem c4_reset_amended :
    (∀ (env : Env) (n : Nat) (s : AnalysisState),
        3 ≤ s.error_retry_count →
        (handle_error_node env n s).error_retry_count = 0) ∧
    (∀ (env : Env) (n : Nat) (s : AnalysisState),
        s.error_retry_count < 3 → (env.repair n).1 = false →
        (handle_error_node env n s).error_retry_count = 0) ∧
    (∀ (env : Env) (n : Nat) (s : AnalysisState),
        (execute_code_node env n s).error_retry_count = s.error_retry_count) := by
  refine ⟨fun env n s h => ?_, fun env n s h hrep => ?_, fun env n s => ?_⟩
  · simp only [handle_error_node, if_neg (Nat.not_lt.mpr h)]
  · simp only [handle_error_node, if_pos h, hrep, Bool.false_eq_true, if_neg,
      not_false_eq_true]
  · unfold execute_code_node
    split
    · rfl
    split
    · rfl
    split <;> rfl

/-- C4, witness for the amended theorem at concrete inputs: the ceiling
branch, the unusable-repair branch, and an execution step. -/
theorem c4_reset_amended_witness :
    (handle_error_node envNoFix 0
        { failedRoundState with error_retry_count := 3 }).error_retry_count = 0 ∧
      (handle_error_node envNoFix 0 failedRoundState).error_retry_count = 0 ∧
      (execute_code_node envRetryLeak 0
          { failedRoundState with error_retry_count := 2 }).error_retry_count
        = { failedRoundState with error_retry_count := 2 }.error_retry_count :=
  ⟨c4_reset_amended.1 envNoFix 0 _ (by decide),
    c4_reset_amended.2.1 envNoFix 0 failedRoundState (by decide) rfl,
    c4_reset_amended.2.2 envRetryLeak 0 _⟩

/-! ## Frame lemmas: which state fields each node can touch -/

lemma plan_analysis_frame (env : Env) (n : Nat) (s : AnalysisState) :
    (plan_analysis_node env n s).analysis_rounds = s.analysis_rounds ∧
    (plan_analysis_node env n s).current_round = s.current_round ∧
    (plan_analysis_node env n s).error_retry_count = s.error_retry_count ∧
    (plan_analysis_node env n s).has_execution_error = s.has_execution_error ∧
    (plan_analysis_node env n s).paused_for_fix = s.paused_for_fix := by
  unfold plan_analysis_node
  split
  · exact ⟨rfl, rfl, rfl, rfl, rfl⟩
  · split <;> exact ⟨rfl, rfl, rfl, rfl, rfl⟩

lemma generate_code_frame (env : Env) (n : Nat) (s : AnalysisState) :
    (generate_code_node env n s).analysis_rounds = s.analysis_rounds ∧
    (generate_code_node env n s).error_retry_count = s.error_retry_count ∧
    (generate_code_node env n s).has_execution_error = s.has_execution_error ∧
    (generate_code_node env n s).paused_for_fix = s.paused_for_fix ∧
    ((generate_code_node env n s).current_round = s.current_round ∨
      (s.error = none ∧
        (generate_code_node env n s).current_round = s.current_round + 1)) := by
  unfold generate_code_node
  dsimp only
  split
  · exact ⟨rfl, rfl, rfl, rfl, Or.inl rfl⟩
  rename_i herr
  have hnone : s.error = none := Option.not_isSome_iff_eq_none.mp herr
  split <;> try split
  all_goals
    first
      | exact ⟨rfl, rfl, rfl, rfl, Or.inr ⟨hnone, rfl⟩⟩
      | exact ⟨rfl, rfl, rfl, rfl, Or.inl rfl⟩

lemma execute_code_frame (env : Env) (n : Nat) (s : AnalysisState) :
    (execute_code_node env n s).current_round = s.current_round ∧
    (execute_code_node env n s).error_retry_count = s.error_retry_count ∧
    (execute_code_node env n s).paused_for_fix = s.paused_for_fix ∧
    ((execute_code_node env n s).analysis_rounds = s.analysis_rounds ∨
      ∃ rec : RoundRecord, rec.round = s.current_round ∧
        (execute_code_node env n s).analysis_rounds
          = s.analysis_rounds ++ [rec]) := by
  unfold execute_code_node
  dsimp only
  repeat'
    first
      | exact ⟨rfl, rfl, rfl, Or.inl rfl⟩
      | exact ⟨rfl, rfl, rfl, Or.inr ⟨_, rfl, rfl⟩⟩
      | split

lemma handle_error_frame (env : Env) (n : Nat) (s : AnalysisState) :
    (handle_error_node env n s).analysis_rounds = s.analysis_rounds ∧
    (handle_error_node env n s).current_round = s.current_round ∧
    (handle_error_node env n s).paused_for_fix = s.paused_for_fix := by
  unfold handle_error_node
  dsimp only
  split
  · split <;> exact ⟨rfl, rfl, rfl⟩
  · exact ⟨rfl, rfl, rfl⟩

lemma update_temp_report_frame (env : Env) (n : Nat) (s : AnalysisState) :
    (update_temp_report_node env n s).analysis_rounds = s.analysis_rounds ∧
    (update_temp_report_node env n s).current_round = s.current_round ∧
    (update_temp_report_node env n s).error_retry_count = s.error_retry_count ∧
    (update_temp_report_node env n s).has_execution_error = s.has_execution_error ∧
    (update_temp_report_node env n s).paused_for_fix = s.paused_for_fix ∧
    (update_temp_report_node env n s).error = s.error ∧
    (update_temp_report_node env n s).should_continue = s.should_continue := by
  unfold update_temp_report_node
  split <;> exact ⟨rfl, rfl, rfl, rfl, rfl, rfl, rfl⟩

lemma decide_continue_frame (env : Env) (n : Nat) (s : AnalysisState) :
    (decide_continue_node env n s).analysis_rounds = s.analysis_rounds ∧
    (decide_continue_node env n s).current_round = s.current_round ∧
    (decide_continue_node env n s).error_retry_count = s.error_retry_count ∧
    (decide_continue_node env n s).has_execution_error = s.has_execution_error ∧
    (decide_continue_node env n s).paused_for_fix = s.paused_for_fix ∧
    (decide_continue_node env n s).error = s.error ∧
    (decide_continue_node env n s).analysis_plan = s.analysis_plan := by
  unfold decide_continue_node
  split
  · exact ⟨rfl, rfl, rfl, rfl, rfl, rfl, rfl⟩
  · split
    · exact ⟨rfl, rfl, rfl, rfl, rfl, rfl, rfl⟩
    · split
      · exact ⟨rfl, rfl, rfl, rfl, rfl, rfl, rfl⟩
      · split <;> exact ⟨rfl, rfl, rfl, rfl, rfl, rfl, rfl⟩

lemma final_summary_frame (env : Env) (n : Nat) (s : AnalysisState) :
    (final_summary_node env n s).analysis_rounds = s.analysis_rounds ∧
    (final_summary_node env n s).current_round = s.current_round ∧
    (final_summary_node env n s).error_retry_count = s.error_retry_count ∧
    (final_summary_node env n s).has_execution_error = s.has_execution_error ∧
    (final_summary_node env n s).paused_for_fix = s.paused_for_fix ∧
    (final_summary_node env n s).should_continue = s.should_continue := by
  unfold final_summary_node
  split <;> exact ⟨rfl, rfl, rfl, rfl, rfl, rfl⟩

lemma read_csv_info_rounds (env : Env) (n : Nat) (s : AnalysisState) :
    (read_csv_info_node env n s).analysis_rounds = [] ∧
    (read_csv_info_node env n s).current_round = 0 := by
  unfold read_csv_info_node
  split <;> exact ⟨rfl, rfl⟩

/-! ## Claim C2 — resume with a replacement source -/

/-- A checkpoint written while round 2 of a three-task plan was paused
for a manual fix (round 1 already succeeded). -/
def savedDoc : SavedState :=
  { csv_path := "data.csv", csv_info := "info", prompt := "p",
    generated_code := "bad code",
    execution_result := some { success := false, output := "", error := "E2" },
    error := some "E2", messages := ["m"],
    analysis_rounds :=
      [{ round := 1, task := "任务1", code := "c1",
         execution_result := { success := true, output := "out1", error := "" },
         timestamp := "t1" }],
    current_round := 2, analysis_plan := ["任务1", "任务2", "任务3"],
    completed_analyses := ["任务1"], temp_report_path := "tmp.md",
    should_continue := true, saved_at := "t2" }

/-- The environment at resume time: the caller's replacement source
`FIX` runs successfully, and the CSV is still readable when the graph
is re-invoked. -/
def envResume : Env :=
  { readCsv := fun _ _ => some "info"
    planTasks := fun _ => some ["任务1", "任务2", "任务3"]
    tmpReport := fun _ => "tmp.md"
    genCode := fun _ => some "c"
    execPy := fun _ code _ => if code = "FIX" then .ok "fixed output" else .ok "out"
    repair := fun _ => (true, "f", "fixed")
    oracle := fun _ => .parsed "stop" ""
    reportUpd := fun _ => some "tmp.md"
    finalReport := fun _ => some "final.md"
    now := fun _ => "ts" }

/-- C2: `resume_analysis` does execute the working replacement source
like a normal Execute step and appends exactly one success record for
the paused round (first three conjuncts) — but it then re-invokes the
compiled graph, which starts at its entry point `read_csv_info`, whose
very first superstep re-initializes the state (`analysis_rounds := []`,
`current_round := 0`): the run restarts from the beginning of the
workflow instead of proceeding from the `Continue?` decision point, and
the just-appended record is lost. -/
theorem c2_resume_restarts_from_entry :
    (resumeStart envResume savedDoc (some "FIX")).analysis_rounds
        = savedDoc.analysis_rounds ++
          [{ round := 2, task := "任务2", code := "FIX",
             execution_result :=
               { success := true, output := "fixed output", error := "" },
             timestamp := "t2" }] ∧
      (resumeStart envResume savedDoc (some "FIX")).paused_for_fix = false ∧
      (resumeStart envResume savedDoc (some "FIX")).should_continue = true ∧
      (resume_analysis envResume savedDoc (some "FIX") 0).node = Node.read_csv ∧
      (resume_analysis envResume savedDoc (some "FIX") 1).st.analysis_rounds = [] ∧
      (resume_analysis envResume savedDoc (some "FIX") 1).st.current_round = 0 :=
  by decide

/-! ## Claim C8 — ledger round numbers -/

/-- C8, counterexample: in the `envRetryLeak` run, after six supersteps
(read, plan, generate, execute-fail, auto-fix, execute-success) the
ledger holds two records both carrying round number 1 — an auto-fix
retry appends a second record with the same round number, so round
numbers are not unique. -/
theorem c8_duplicate_round_counterexample :
    ((runFrom envRetryLeak (initConfig "data.csv") 6).st.analysis_rounds.map
        RoundRecord.round) = [1, 1] := by decide

/-- Ledger invariant carried along every run: all recorded round
numbers are bounded by `current_round`, the recorded round numbers are
non-decreasing in ledger order, and at the entry node the ledger is
empty. -/
def ledgerInv (c : Config) : Prop :=
  (∀ r ∈ c.st.analysis_rounds, r.round ≤ c.st.current_round) ∧
  List.Pairwise (fun a b => a ≤ b)
    (c.st.analysis_rounds.map RoundRecord.round) ∧
  (c.node = Node.read_csv → c.st.analysis_rounds = [])

lemma ledgerInv_init (p : String) : ledgerInv (initConfig p) := by
  refine ⟨?_, ?_, ?_⟩ <;> simp [initConfig, initState]

lemma ledgerInv_step (env : Env) (c : Config) (h : ledgerInv c) :
    ledgerInv (step env c) := by
  obtain ⟨h1, h2, _⟩ := h
  obtain ⟨node, st, tick⟩ := c
  cases node <;> simp only [step]
  case read_csv =>
    obtain ⟨hr, hc⟩ := read_csv_info_rounds env tick st
    exact ⟨by simp [hr], by simp [hr], fun _ => hr⟩
  case plan =>
    obtain ⟨hr, hc, -⟩ := plan_analysis_frame env tick st
    exact ⟨by rw [hr, hc]; exact h1, by rw [hr]; exact h2, by simp⟩
  case gen =>
    obtain ⟨hr, -, -, -, hc⟩ := generate_code_frame env tick st
    refine ⟨?_, by rw [hr]; exact h2, by simp⟩
    intro r hm
    rcases hc with hc | ⟨-, hc⟩ <;> rw [hc, hr] at *
    · exact h1 r hm
    · exact Nat.le_succ_of_le (h1 r hm)
  case exec =>
    obtain ⟨hc, -, -, hr⟩ := execute_code_frame env tick st
    rcases hr with hr | ⟨rec, hrec, hr⟩
    · exact ⟨by rw [hr, hc]; exact h1, by rw [hr]; exact h2,
        by intro hx; revert hx; split <;> simp⟩
    · refine ⟨?_, ?_, by intro hx; revert hx; split <;> simp⟩
      · intro r hm
        rw [hr] at hm
        rw [hc]
        rcases List.mem_append.1 hm with hm | hm
        · exact h1 r hm
        · simp only [List.mem_singleton] at hm
          exact hm ▸ hrec.le
      · rw [hr, List.map_append]
        refine List.pairwise_append.2 ⟨h2, by simp, ?_⟩
        intro a ha b hb
        simp only [List.map_cons, List.map_nil, List.mem_singleton] at hb
        rcases List.mem_map.1 ha with ⟨r, hrm, hra⟩
        rw [hb, hrec, ← hra]
        exact h1 r hrm
  case herr =>
    obtain ⟨hr, hc, -⟩ := handle_error_frame env tick st
    refine ⟨by rw [hr, hc]; exact h1, by rw [hr]; exact h2,
      by intro hx; revert hx; split <;> (try split) <;> simp⟩
  case report =>
    obtain ⟨hr, hc, -⟩ := update_temp_report_frame env tick st
    exact ⟨by rw [hr, hc]; exact h1, by rw [hr]; exact h2, by simp⟩
  case decide =>
    obtain ⟨hr, hc, -⟩ := decide_continue_frame env tick st
    refine ⟨by rw [hr, hc]; exact h1, by rw [hr]; exact h2,
      by intro hx; revert hx; split <;> simp⟩
  case final =>
    obtain ⟨hr, hc, -⟩ := final_summary_frame env tick st
    exact ⟨by rw [hr, hc]; exact h1, by rw [hr]; exact h2, by simp⟩
  case done =>
    exact ⟨h1, h2, by simp⟩

lemma ledgerInv_run (env : Env) (p : String) (k : Nat) :
    ledgerInv (runFrom env (initConfig p) k) := by
  induction k with
  | zero => exact ledgerInv_init p
  | succ k ih => exact ledgerInv_step env _ ih

lemma step_ledger_extends (env : Env) (c : Config)
    (h0 : c.node = Node.read_csv → c.st.analysis_rounds = []) :
    ∃ t, c.st.analysis_rounds ++ t = (step env c).st.analysis_rounds := by
  obtain ⟨node, st, tick⟩ := c
  cases node <;> simp only [step]
  case read_csv =>
    exact ⟨[], by rw [h0 rfl, (read_csv_info_rounds env tick st).1]; rfl⟩
  case plan => exact ⟨[], by rw [(plan_analysis_frame env tick st).1]; simp⟩
  case gen => exact ⟨[], by rw [(generate_code_frame env tick st).1]; simp⟩
  case exec =>
    rcases (execute_code_frame env tick st).2.2.2 with hr | ⟨rec, -, hr⟩
    · exact ⟨[], by rw [hr]; simp⟩
    · exact ⟨[rec], by rw [hr]⟩
  case herr => exact ⟨[], by rw [(handle_error_frame env tick st).1]; simp⟩
  case report =>
    exact ⟨[], by rw [(update_temp_report_frame env tick st).1]; simp⟩
  case decide =>
    exact ⟨[], by rw [(decide_continue_frame env tick st).1]; simp⟩
  case final => exact ⟨[], by rw [(final_summary_frame env tick st).1]; simp⟩
  case done => exact ⟨[], by simp⟩

/-- C8, amended: in every run from the canonical initial state, the
ledger is append-only (each superstep only extends it; no record is
mutated or removed after append) and the recorded round numbers are
monotonically non-decreasing — but not unique: an auto-fix retry of a
failed round appends a second record with the same round number (see
the counterexample). -/
theorem c8_ledger_amended (env : Env) (p : String) (k : Nat) :
    List.Pairwise (fun a b => a ≤ b)
      ((runFrom env (initConfig p) k).st.analysis_rounds.map
        RoundRecord.round) ∧
    ∃ t, (runFrom env (initConfig p) k).st.analysis_rounds ++ t
        = (runFrom env (initConfig p) (k + 1)).st.analysis_rounds := by
  refine ⟨(ledgerInv_run env p k).2.1, ?_⟩
  exact step_ledger_extends env _ (ledgerInv_run env p k).2.2

/-! ## Claim C7 — the continuation fallback -/

/-- An environment whose continuation capability is entirely absent
(every call raises), with a six-task plan and always-succeeding
execution. -/
def envOracleDown : Env :=
  { readCsv := fun _ _ => some "info"
    planTasks := fun _ =>
      some ["任务1", "任务2", "任务3", "任务4", "任务5", "任务6"]
    tmpReport := fun _ => "tmp.md"
    genCode := fun _ => some "c"
    execPy := fun _ _ _ => .ok "out"
    repair := fun _ => (true, "f", "fixed")
    oracle := fun _ => .unavailable
    reportUpd := fun _ => some "tmp.md"
    finalReport := fun _ => some "final.md"
    now := fun _ => "ts" }

/-- C7, counterexample: with the decision capability unavailable for
the whole `envOracleDown` run, after five successful rounds the engine
reaches the `Continue?` node with `current_round = 5` and a plan of
length 6 — the round index is still less than the plan length, yet the
node decides to stop (the `MAX_ROUNDS` guard fires before the
fallback), so "continue if and only if the round index is less than
the plan length" fails. -/
theorem c7_fallback_counterexample :
    (runFrom envOracleDown (initConfig "data.csv") 21).node = Node.decide ∧
      (runFrom envOracleDown (initConfig "data.csv") 21).st.error = none ∧
      (runFrom envOracleDown (initConfig "data.csv") 21).st.current_round = 5 ∧
      (runFrom envOracleDown (initConfig "data.csv") 21).st.analysis_plan.length
        = 6 ∧
      (runFrom envOracleDown (initConfig "data.csv") 22).st.should_continue
        = false ∧
      (runFrom envOracleDown (initConfig "data.csv") 22).node = Node.final :=
  by decide

/-- C7, amended: whenever the decision capability is unavailable or its
response unparseable, `decide_continue_node` continues exactly when no
error is pending, the round cap (`MAX_ROUNDS` = 5) is not reached, and
the round index is less than the plan length.  (Beyond the plan the run
still stops, as the claim's parenthetical says; the extra conjunct the
claim misses is the round cap.) -/
theorem c7_fallback_amended (env : Env) (n : Nat) (s : AnalysisState)
    (h : env.oracle n = OracleResp.unavailable ∨
      env.oracle n = OracleResp.unparseable) :
    (decide_continue_node env n s).should_continue =
      (decide (s.error = none) && decide (s.current_round < 5) &&
        decide (s.current_round < s.analysis_plan.length)) := by
  unfold decide_continue_node
  split
  · rename_i herr
    have h1 : ¬(s.error = none) := by
      simp only [Option.isSome_iff_ne_none] at herr; exact herr
    simp [h1]
  rename_i herr
  have h1 : s.error = none := by
    simp only [Option.isSome_iff_ne_none, not_not] at herr; exact herr
  split
  · rename_i h5
    have h2 : ¬(s.current_round < 5) := not_lt.mpr h5
    simp [h2]
  rename_i h5
  have h2 : s.current_round < 5 := not_le.mp h5
  split
  · rename_i hlen
    have h3 : ¬(s.current_round < s.analysis_plan.length) := not_lt.mpr hlen
    simp [h3]
  rename_i hlen
  have h3 : s.current_round < s.analysis_plan.length := not_le.mp hlen
  rcases h with h | h <;> rw [h] <;> simp [h1, h2, h3]

/-- A fresh state with a one-task plan, about to be asked for
continuation. -/
def planOneState : AnalysisState :=
  { initState "data.csv" with analysis_plan := ["任务1"] }

/-- C7, witness for the amended theorem: with the capability
unavailable, a healthy state at round 0 of a one-task plan
continues. -/
theorem c7_fallback_amended_witness :
    (decide_continue_node envOracleDown 5 planOneState).should_continue = true := by
  rw [c7_fallback_amended envOracleDown 5 planOneState (Or.inl rfl)]
  decide

/-! ## Claim C3 — the retry ceiling -/

/-- The retry loop of a round: the `execute_code` / `handle_error`
pair. -/
def loopNode (n : Node) : Prop := n = Node.exec ∨ n = Node.herr

instance (n : Node) : Decidable (loopNode n) := by
  unfold loopNode; infer_instance

/-- Whether the configuration is a `handle_error` visit that takes the
auto-fix branch (retry budget left and the repairer returned a usable
source). -/
def autoTaken (env : Env) (c : Config) : Bool :=
  decide (c.node = Node.herr) && decide (c.st.error_retry_count < 3) &&
    (env.repair c.tick).1

/-- Number of auto-fix repairs taken in the first `k` supersteps from
`c0`. -/
def autoCount (env : Env) (c0 : Config) (k : Nat) : Nat :=
  ((List.range k).filter (fun i => autoTaken env (runFrom env c0 i))).length

lemma autoCount_succ (env : Env) (c0 : Config) (k : Nat) :
    autoCount env c0 (k + 1) =
      autoCount env c0 k +
        (if autoTaken env (runFrom env c0 k) then 1 else 0) := by
  unfold autoCount
  rw [List.range_succ, List.filter_append, List.length_append]
  by_cases h : autoTaken env (runFrom env c0 k) = true <;> simp [h]

/-- Stepping from `handle_error`: the counter becomes `+1` on an
auto-fix and `0` otherwise; staying inside the retry loop forces the
auto-fix branch (with its `< 3` guard) and leads back to
`execute_code`. -/
lemma herr_step (env : Env) (c : Config) (hc : c.node = Node.herr) :
    ((step env c).st.error_retry_count =
      if autoTaken env c then c.st.error_retry_count + 1 else 0) ∧
    (loopNode (step env c).node →
      autoTaken env c = true ∧ (step env c).node = Node.exec) ∧
    (autoTaken env c = true → c.st.error_retry_count < 3) := by
  obtain ⟨node, st, tick⟩ := c
  cases hc
  simp only [step, autoTaken]
  unfold handle_error_node
  dsimp only
  by_cases h3 : st.error_retry_count < 3
  · by_cases hrep : (env.repair tick).1 = true
    · simp only [if_pos h3, hrep, decide_eq_true h3]
      by_cases hp : st.paused_for_fix = true <;>
        simp [hp, loopNode, h3]
    · simp only [if_pos h3, Bool.not_eq_true] at *
      simp only [hrep]
      by_cases hp : st.paused_for_fix = true <;>
        simp [hp, loopNode, hrep]
  · simp only [if_neg h3]
    by_cases hp : st.paused_for_fix = true <;>
      simp [hp, loopNode, h3]

/-- Stepping from `execute_code`: the counter is untouched, the visit
is not an auto-fix, and staying inside the loop means the execution
failed and control moved to `handle_error`. -/
lemma exec_step (env : Env) (c : Config) (hc : c.node = Node.exec) :
    (step env c).st.error_retry_count = c.st.error_retry_count ∧
    autoTaken env c = false ∧
    (loopNode (step env c).node → (step env c).node = Node.herr) := by
  obtain ⟨node, st, tick⟩ := c
  cases hc
  refine ⟨(execute_code_frame env tick st).2.1, by simp [autoTaken], ?_⟩
  simp only [step]
  split <;> simp [loopNode]

/-- Along a prefix of supersteps confined to the retry loop, the retry
counter tracks the number of auto-fixes taken so far, and that number
never exceeds `MAX_RETRY` = 3. -/
lemma confined_count (env : Env) (c0 : Config) (k : Nat)
    (hconf : ∀ i, i < k → loopNode (runFrom env c0 i).node) :
    ∀ j, j ≤ k →
      autoCount env c0 j ≤ 3 ∧
      (j < k →
        (runFrom env c0 j).st.error_retry_count =
          c0.st.error_retry_count + autoCount env c0 j) := by
  intro j
  induction j with
  | zero =>
    intro _
    exact ⟨by simp [autoCount], fun _ => by simp [autoCount, runFrom]⟩
  | succ j ih =>
    intro hjk
    have hj : j < k := Nat.lt_of_succ_le hjk
    obtain ⟨iha, ihc⟩ := ih hj.le
    have hcount := ihc hj
    have hloop := hconf j hj
    have hstep : runFrom env c0 (j + 1) = step env (runFrom env c0 j) := rfl
    rcases hloop with hx | hx
    · -- `execute_code`: no auto-fix, counter preserved
      obtain ⟨he1, he2, -⟩ := exec_step env (runFrom env c0 j) hx
      rw [autoCount_succ, he2]
      refine ⟨by simpa using iha, fun _ => ?_⟩
      rw [hstep, he1, hcount]
      simp
    · -- `handle_error`
      obtain ⟨hh1, hh2, hh3⟩ := herr_step env (runFrom env c0 j) hx
      by_cases ha : autoTaken env (runFrom env c0 j) = true
      · have hlt := hh3 ha
        rw [hcount] at hlt
        have : autoCount env c0 j < 3 := by omega
        rw [autoCount_succ, ha]
        refine ⟨by simp; omega, fun _ => ?_⟩
        rw [hstep, hh1, if_pos ha, hcount]
        simp [Nat.add_assoc]
      · rw [autoCount_succ, if_neg ha]
        refine ⟨by simpa using iha, fun hk => ?_⟩
        -- a non-auto `handle_error` leaves the loop, contradicting
        -- confinement at j + 1
        have := hconf (j + 1) hk
        rw [hstep] at this
        exact absurd (hh2 this).1 ha

/-- C3: starting a round's execution at `execute_code`, along any run
prefix that stays inside the retry loop the auto-fix repair branch is
taken at most `MAX_RETRY` = 3 times, and the loop cannot persist beyond
8 supersteps — after at most three auto-fix attempts the round resolves
(to success or skip; `handle_error_node` never pauses on the automated
path), and a fourth retry never happens. -/
theorem c3_retry_ceiling (env : Env) (s : AnalysisState) (n k : Nat)
    (hconf : ∀ i, i < k → loopNode (runFrom env ⟨Node.exec, s, n⟩ i).node) :
    autoCount env ⟨Node.exec, s, n⟩ k ≤ 3 ∧ k ≤ 8 := by
  refine ⟨(confined_count env _ k hconf k le_rfl).1, ?_⟩
  by_contra hk
  push_neg at hk
  -- all of the first nine positions are inside the loop
  have hloop : ∀ i, i ≤ 8 → loopNode (runFrom env ⟨Node.exec, s, n⟩ i).node :=
    fun i hi => hconf i (lt_of_le_of_lt hi hk)
  -- the nodes alternate: even positions execute, odd positions repair
  have hstep : ∀ j, runFrom env ⟨Node.exec, s, n⟩ (j + 1)
      = step env (runFrom env ⟨Node.exec, s, n⟩ j) := fun j => rfl
  have n0 : (runFrom env ⟨Node.exec, s, n⟩ 0).node = Node.exec := rfl
  have alt : ∀ j, j < 8 →
      ((runFrom env ⟨Node.exec, s, n⟩ j).node = Node.exec →
        (runFrom env ⟨Node.exec, s, n⟩ (j + 1)).node = Node.herr) ∧
      ((runFrom env ⟨Node.exec, s, n⟩ j).node = Node.herr →
        (runFrom env ⟨Node.exec, s, n⟩ (j + 1)).node = Node.exec) := by
    intro j hj
    constructor
    · intro hx
      have := (exec_step env _ hx).2.2
      rw [← hstep] at this
      exact this (hloop (j + 1) (by omega))
    · intro hx
      have := (herr_step env _ hx).2.1
      rw [← hstep] at this
      exact (this (hloop (j + 1) (by omega))).2
  have n1 := (alt 0 (by omega)).1 n0
  have n2 := (alt 1 (by omega)).2 n1
  have n3 := (alt 2 (by omega)).1 n2
  have n4 := (alt 3 (by omega)).2 n3
  have n5 := (alt 4 (by omega)).1 n4
  have n6 := (alt 5 (by omega)).2 n5
  have n7 := (alt 6 (by omega)).1 n6
  -- each odd position is a taken auto-fix
  have hat : ∀ j, j < 8 →
      (runFrom env ⟨Node.exec, s, n⟩ j).node = Node.herr →
      autoTaken env (runFrom env ⟨Node.exec, s, n⟩ j) = true := by
    intro j hj hx
    have := (herr_step env _ hx).2.1
    rw [← hstep] at this
    exact (this (hloop (j + 1) (by omega))).1
  have hcnt := confined_count env ⟨Node.exec, s, n⟩ k hconf
  -- the counter grows by one at positions 1, 3, 5, and stays put at
  -- even positions, so at position 7 it is the initial value plus 3
  have e0 := (exec_step env _ n0).1
  have e2 := (exec_step env _ n2).1
  have e4 := (exec_step env _ n4).1
  have e6 := (exec_step env _ n6).1
  have o1 := (herr_step env _ n1).1
  have o3 := (herr_step env _ n3).1
  have o5 := (herr_step env _ n5).1
  rw [hat 1 (by omega) n1] at o1
  rw [hat 3 (by omega) n3] at o3
  rw [hat 5 (by omega) n5] at o5
  simp only [if_true] at o1 o3 o5
  rw [← hstep] at e0 e2 e4 e6 o1 o3 o5
  -- but the auto-fix at position 7 needs the counter below 3
  have o7 := (herr_step env _ n7).2.2 (hat 7 (by omega) n7)
  norm_num at e0 e2 e4 e6 o1 o3 o5 o7
  omega

/-- An environment whose execution always fails and whose repairer
always answers with a usable fix. -/
def envAllFail : Env :=
  { readCsv := fun _ _ => some "info"
    planTasks := fun _ => some ["任务1"]
    tmpReport := fun _ => "tmp.md"
    genCode := fun _ => some "bad"
    execPy := fun _ _ _ => .raised "ValueError: boom" ""
    repair := fun _ => (true, "bad", "fixed")
    oracle := fun _ => .parsed "stop" ""
    reportUpd := fun _ => some "tmp.md"
    finalReport := fun _ => some "final.md"
    now := fun _ => "ts" }

/-- The round-1 state entering `execute_code` in that run. -/
def allFailState : AnalysisState :=
  { initState "data.csv" with
      current_round := 1, analysis_plan := ["任务1"], generated_code := "bad" }

/-- C3, witness: under `envAllFail` the retry loop runs e-h-e-h-e-h-e-h
for exactly 8 supersteps (the confinement hypothesis holds concretely)
and exactly 3 auto-fixes are taken. -/
theorem c3_retry_ceiling_witness :
    autoCount envAllFail ⟨Node.exec, allFailState, 0⟩ 8 ≤ 3 ∧ (8 : Nat) ≤ 8 :=
  c3_retry_ceiling envAllFail allFailState 0 8 (by decide)

/-! ## Claim C6 — the round cap and termination -/

/-- Reachability invariant for the round cap: `current_round` never
exceeds `MAX_ROUNDS` = 5; at the entry node it is 0; at the planning
node it is 0 with no execution error pending; at the generation node a
pending error comes without an execution-error flag, and an error-free
state is below the cap. -/
def stateInv (c : Config) : Prop :=
  c.st.current_round ≤ 5 ∧
  (c.node = Node.read_csv → c.st.current_round = 0) ∧
  (c.node = Node.plan →
    c.st.has_execution_error = false ∧ c.st.current_round = 0) ∧
  (c.node = Node.gen →
    (c.st.error.isSome = true → c.st.has_execution_error = false) ∧
    (c.st.error = none → c.st.current_round ≤ 4))

lemma read_csv_info_props (env : Env) (n : Nat) (s : AnalysisState) :
    (read_csv_info_node env n s).current_round = 0 ∧
    (read_csv_info_node env n s).has_execution_error = false := by
  unfold read_csv_info_node
  split <;> exact ⟨rfl, rfl⟩

lemma plan_skip_of_error (env : Env) (n : Nat) (s : AnalysisState)
    (h : s.error.isSome = true) : plan_analysis_node env n s = s := by
  unfold plan_analysis_node
  simp [h]

lemma generate_skip_of_error (env : Env) (n : Nat) (s : AnalysisState)
    (h : s.error.isSome = true) : generate_code_node env n s = s := by
  unfold generate_code_node
  simp [h]

lemma execute_skip_of_error (env : Env) (n : Nat) (s : AnalysisState)
    (h : s.error.isSome = true) : execute_code_node env n s = s := by
  unfold execute_code_node
  simp [h]

lemma generate_round (env : Env) (n : Nat) (s : AnalysisState)
    (h : s.error = none) :
    (s.current_round < s.analysis_plan.length ∧
      (generate_code_node env n s).current_round = s.current_round + 1 ∧
      (generate_code_node env n s).error_retry_count = s.error_retry_count) ∨
    (s.analysis_plan.length ≤ s.current_round ∧
      generate_code_node env n s =
        { s with should_continue := false,
                 messages := s.messages ++ ["所有计划任务已完成"] }) := by
  unfold generate_code_node
  dsimp only
  rw [if_neg (by simp [h])]
  by_cases hlen : s.current_round + 1 ≤ s.analysis_plan.length
  · rw [if_pos hlen]
    refine Or.inl ⟨by omega, ?_⟩
    rcases env.genCode n with _ | code <;> exact ⟨rfl, rfl⟩
  · rw [if_neg hlen]
    exact Or.inr ⟨by omega, rfl⟩

lemma decide_continue_true (env : Env) (n : Nat) (s : AnalysisState)
    (h : (decide_continue_node env n s).should_continue = true) :
    s.error = none ∧ s.current_round < 5 ∧
      s.current_round < s.analysis_plan.length := by
  unfold decide_continue_node at h
  split at h
  · simp at h
  rename_i h1
  split at h
  · simp at h
  rename_i h2
  split at h
  · simp at h
  rename_i h3
  exact ⟨Option.not_isSome_iff_eq_none.mp h1, not_le.mp h2, not_le.mp h3⟩

lemma stateInv_init (p : String) : stateInv (initConfig p) := by
  refine ⟨by simp [initConfig, initState], fun _ => by simp [initConfig, initState],
    by simp [initConfig], by simp [initConfig]⟩

lemma stateInv_step (env : Env) (c : Config) (h : stateInv c) :
    stateInv (step env c) := by
  obtain ⟨h5, hrd, hpl, hgn⟩ := h
  obtain ⟨node, st, tick⟩ := c
  dsimp only at h5 hrd hpl hgn
  cases node <;> simp only [step]
  case read_csv =>
    obtain ⟨hr, hx⟩ := read_csv_info_props env tick st
    exact ⟨by rw [hr]; omega, by simp, fun _ => ⟨hx, hr⟩, by simp⟩
  case plan =>
    obtain ⟨hpe, hpr⟩ := hpl rfl
    have hf := plan_analysis_frame env tick st
    refine ⟨by rw [hf.2.1]; exact h5, by simp, by simp, fun _ => ⟨?_, ?_⟩⟩
    · intro _
      rw [hf.2.2.2.1]
      exact hpe
    · intro _
      rw [hf.2.1, hpr]
      omega
  case gen =>
    have hf := generate_code_frame env tick st
    refine ⟨?_, by simp, by simp, by simp⟩
    rcases hf.2.2.2.2 with hc | ⟨hnone, hc⟩
    · rw [hc]
      exact h5
    · rw [hc]
      have := (hgn rfl).2 hnone
      omega
  case exec =>
    refine ⟨by rw [(execute_code_frame env tick st).1]; exact h5,
      by split <;> simp, by split <;> simp, by split <;> simp⟩
  case herr =>
    refine ⟨by rw [(handle_error_frame env tick st).2.1]; exact h5,
      by split <;> (try split) <;> simp,
      by split <;> (try split) <;> simp,
      by split <;> (try split) <;> simp⟩
  case report =>
    exact ⟨by rw [(update_temp_report_frame env tick st).2.1]; exact h5,
      by simp, by simp, by simp⟩
  case decide =>
    have hf := decide_continue_frame env tick st
    refine ⟨by rw [hf.2.1]; exact h5, by split <;> simp, by split <;> simp, ?_⟩
    intro hx
    by_cases hsc : (decide_continue_node env tick st).should_continue = true
    · have hd := decide_continue_true env tick st hsc
      refine ⟨fun hs => ?_, fun _ => ?_⟩
      · rw [hf.2.2.2.2.2.1, hd.1] at hs
        simp at hs
      · rw [hf.2.1]
        omega
    · rw [if_neg hsc] at hx
      simp at hx
  case final =>
    exact ⟨by rw [(final_summary_frame env tick st).2.1]; exact h5,
      by simp, by simp, by simp⟩
  case done =>
    exact ⟨h5, by simp, by simp, by simp⟩

/-- The phase component of the termination measure. -/
def muN : Node → AnalysisState → Nat
  | .done, _ => 0
  | .final, _ => 1
  | .decide, _ => 2
  | .report, _ => 3
  | .exec, s =>
    if s.error.isSome = true ∧ s.has_execution_error = false then 4
    else 17 + 2 * (3 - s.error_retry_count)
  | .herr, s => 16 + 2 * (3 - s.error_retry_count)
  | .gen, s => if s.error.isSome = true then 5 else 24
  | .plan, s => if s.error.isSome = true then 6 else 25
  | .read_csv, _ => 26

/-- The rounds-remaining component: at an error-free generation node
within the plan, the upcoming increment is already accounted for. -/
def rhoN : Node → AnalysisState → Nat
  | .gen, s =>
    (5 - s.current_round) -
      (if s.error = none ∧
          s.current_round < s.analysis_plan.length then 1 else 0)
  | _, s => 5 - s.current_round

/-- The termination measure. -/
def M (c : Config) : Nat := 30 * rhoN c.node c.st + muN c.node c.st

lemma muN_pos (c : Config) (h : c.node ≠ Node.done) : 1 ≤ muN c.node c.st := by
  obtain ⟨node, st, tick⟩ := c
  cases node
  case done => exact absurd rfl h
  all_goals simp only [muN]
  all_goals first | (split_ifs <;> omega) | omega

lemma M_step_lt (env : Env) (c : Config) (hInv : stateInv c)
    (hn : c.node ≠ Node.done) : M (step env c) < M c := by
  obtain ⟨h5, hrd, hpl, hgn⟩ := hInv
  obtain ⟨node, st, tick⟩ := c
  dsimp only at h5 hrd hpl hgn hn
  cases node <;> simp only [step]
  case read_csv =>
    have h0 := hrd rfl
    have hr := (read_csv_info_props env tick st).1
    simp only [M]
    simp only [muN, rhoN, hr, h0]
    split_ifs <;> omega
  case plan =>
    by_cases herr : st.error.isSome = true
    · rw [plan_skip_of_error env tick st herr]
      have hne : ¬(st.error = none ∧
          st.current_round < st.analysis_plan.length) := by
        rintro ⟨hc, -⟩
        rw [hc] at herr
        simp at herr
      simp only [M]
      simp only [muN, rhoN, if_pos herr, if_neg hne]
      omega
    · have hr := (plan_analysis_frame env tick st).2.1
      simp only [M]
      simp only [muN, rhoN, hr, if_neg herr]
      split_ifs <;> omega
  case gen =>
    by_cases herr : st.error.isSome = true
    · rw [generate_skip_of_error env tick st herr]
      have hx := (hgn rfl).1 herr
      have hne : ¬(st.error = none ∧
          st.current_round < st.analysis_plan.length) := by
        rintro ⟨hc, -⟩
        rw [hc] at herr
        simp at herr
      have hcond : st.error.isSome = true ∧ st.has_execution_error = false :=
        ⟨herr, hx⟩
      simp only [M]
      simp only [muN, rhoN, if_pos herr, if_neg hne, if_pos hcond]
      omega
    · have hnone : st.error = none := Option.not_isSome_iff_eq_none.mp herr
      have hcnt := (generate_code_frame env tick st).2.1
      rcases generate_round env tick st hnone with ⟨hlt, hre, -⟩ | ⟨hge, hre⟩
      · have hcond : st.error = none ∧
            st.current_round < st.analysis_plan.length := ⟨hnone, hlt⟩
        simp only [M]
        simp only [muN, rhoN, if_neg herr, if_pos hcond, hre, hcnt]
        split_ifs <;> omega
      · rw [hre]
        have hne : ¬(st.error = none ∧
            st.current_round < st.analysis_plan.length) := by
          rintro ⟨-, hc⟩
          omega
        simp only [M]
        simp only [muN, rhoN, if_neg herr, if_neg hne]
        split_ifs <;> omega
  case exec =>
    have hr := (execute_code_frame env tick st).1
    have hcnt := (execute_code_frame env tick st).2.1
    by_cases hx : (execute_code_node env tick st).has_execution_error = true
    · -- failure route: on to error handling
      have hcond : ¬(st.error.isSome = true ∧
          st.has_execution_error = false) := by
        rintro ⟨hs, hb⟩
        rw [execute_skip_of_error env tick st hs] at hx
        rw [hb] at hx
        exact Bool.false_ne_true hx
      rw [if_pos hx]
      simp only [M]
      simp only [muN, rhoN, hr, hcnt, if_neg hcond]
      omega
    · -- success route: on to the report
      rw [if_neg hx]
      simp only [M]
      simp only [muN, rhoN, hr]
      split_ifs <;> omega
  case herr =>
    have hr := (handle_error_frame env tick st).2.1
    by_cases hp : (handle_error_node env tick st).paused_for_fix = true
    · rw [if_pos hp]
      simp only [M]
      simp only [muN, rhoN, hr]
      omega
    · rw [if_neg hp]
      by_cases hm : (handle_error_node env tick st).user_intervention_mode
          = some "auto_fix"
      · rw [if_pos hm]
        -- the auto-fix branch: retry budget strictly decreases
        have hb : st.error_retry_count < 3 ∧
            (handle_error_node env tick st).error = (none : Option String) ∧
            (handle_error_node env tick st).error_retry_count =
              st.error_retry_count + 1 := by
          unfold handle_error_node at hm ⊢
          dsimp only at hm ⊢
          by_cases h3 : st.error_retry_count < 3
          · rw [if_pos h3] at hm ⊢
            by_cases hrep : (env.repair tick).1 = true
            · rw [if_pos hrep]
              exact ⟨h3, rfl, rfl⟩
            · rw [if_neg hrep] at hm
              simp at hm
          · rw [if_neg h3] at hm
            simp at hm
        obtain ⟨h3, he, hc⟩ := hb
        have hcond : ¬((handle_error_node env tick st).error.isSome = true ∧
            (handle_error_node env tick st).has_execution_error = false) := by
          rw [he]
          simp
        simp only [M]
        simp only [muN, rhoN, hr, hc, if_neg hcond]
        omega
      · rw [if_neg hm]
        simp only [M]
        simp only [muN, rhoN, hr]
        omega
  case report =>
    have hr := (update_temp_report_frame env tick st).2.1
    simp only [M]
    simp only [muN, rhoN, hr]
    omega
  case decide =>
    have hf := decide_continue_frame env tick st
    by_cases hsc : (decide_continue_node env tick st).should_continue = true
    · rw [if_pos hsc]
      have hd := decide_continue_true env tick st hsc
      have he : (decide_continue_node env tick st).error = none := by
        rw [hf.2.2.2.2.2.1, hd.1]
      have hmu : ¬((decide_continue_node env tick st).error.isSome = true) := by
        rw [he]
        simp
      have hr5 := hd.2.1
      simp only [M]
      simp only [muN, rhoN, hf.2.1, if_neg hmu]
      split_ifs with hA
      · omega
      · exact absurd ⟨he, by rw [hf.2.2.2.2.2.2]; exact hd.2.2⟩ hA
    · rw [if_neg hsc]
      simp only [M]
      simp only [muN, rhoN, hf.2.1]
      omega
  case final =>
    have hr := (final_summary_frame env tick st).2.1
    simp only [M]
    simp only [muN, rhoN, hr]
    omega
  case done => exact absurd rfl hn

lemma runFrom_succ_left (env : Env) (c : Config) (k : Nat) :
    runFrom env c (k + 1) = runFrom env (step env c) k := by
  induction k with
  | zero => rfl
  | succ k ih =>
    show step env (runFrom env c (k + 1)) = step env (runFrom env (step env c) k)
    rw [ih]

lemma run_done_of_M (env : Env) :
    ∀ (m : Nat) (c : Config), stateInv c → M c ≤ m →
      ∃ k, k ≤ m ∧ (runFrom env c k).node = Node.done := by
  intro m
  induction m with
  | zero =>
    intro c hInv hM
    refine ⟨0, le_rfl, ?_⟩
    by_contra hd
    have := muN_pos c hd
    simp only [M] at hM
    omega
  | succ m ih =>
    intro c hInv hM
    by_cases hd : c.node = Node.done
    · exact ⟨0, Nat.zero_le _, hd⟩
    · have hlt := M_step_lt env c hInv hd
      obtain ⟨k, hk, hdone⟩ := ih (step env c) (stateInv_step env c hInv) (by omega)
      exact ⟨k + 1, by omega, by rw [runFrom_succ_left]; exact hdone⟩

lemma stateInv_run (env : Env) (p : String) (k : Nat) :
    stateInv (runFrom env (initConfig p) k) := by
  induction k with
  | zero => exact stateInv_init p
  | succ k ih => exact stateInv_step env _ ih

/-- C6: in every run from the canonical initial state, whatever the
environment does (in particular even if the continuation oracle always
answers "continue" and however long the plan is), `current_round` never
exceeds `MAX_ROUNDS` = 5, and the run reaches the terminal node within
a bounded number of supersteps. -/
theorem c6_round_cap (env : Env) (p : String) :
    (∀ k, (runFrom env (initConfig p) k).st.current_round ≤ 5) ∧
    ∃ k, k ≤ 176 ∧ (runFrom env (initConfig p) k).node = Node.done := by
  constructor
  · exact fun k => (stateInv_run env p k).1
  · exact run_done_of_M env 176 (initConfig p) (stateInv_init p)
      (by simp [M, muN, rhoN, initConfig, initState])

/-! ## Claim C10 — the implicit SQL result bound -/

/-- C10: for a SQL text whose lowercased, stripped form does not
contain `limit` as a substring, on an existing database and past the
safety validation, `execute_sql_safely` executes exactly the query
obtained by removing trailing semicolons, stripping, and appending
`LIMIT 1000` (first conjunct); consequently — given that SQLite honours
the appended `LIMIT` clause, the hypothesis `hbound` — every successful
result has `row_count` equal to the length of its `data` list and at
most 1000. -/
theorem c10_sql_limit (env : SqlEnv) (sql db : String)
    (hfree : containsSeq "limit".toList (stripChars (pyLower sql).toList) = false)
    (hdb : env.dbExists db = true)
    (hsafe : (validate_sql_safety sql).1 = true)
    (hbound : ∀ cols rows,
      env.runQuery (pyStrip (pyRstripSemi sql) ++ " LIMIT 1000") db =
        Except.ok (cols, rows) → rows.length ≤ 1000) :
    (execute_sql_safely env sql db 1000 =
      match env.runQuery (pyStrip (pyRstripSemi sql) ++ " LIMIT 1000") db with
      | .error e =>
        { success := false, data := [], columns := [], row_count := 0,
          error := "SQLite 错误: " ++ e }
      | .ok (cols, rows) =>
        { success := true, data := rows, columns := cols,
          row_count := rows.length, error := "" }) ∧
    ((execute_sql_safely env sql db 1000).success = true →
      (execute_sql_safely env sql db 1000).row_count =
        (execute_sql_safely env sql db 1000).data.length ∧
      (execute_sql_safely env sql db 1000).row_count ≤ 1000) := by
  have hq : addLimit sql 1000 = pyStrip (pyRstripSemi sql) ++ " LIMIT 1000" := by
    unfold addLimit
    rw [if_neg (by rw [hfree]; exact Bool.false_ne_true), String.append_assoc]
    exact congrArg (fun t => pyStrip (pyRstripSemi sql) ++ t) (by decide)
  have hv : validate_sql_safety sql = (true, (validate_sql_safety sql).2) := by
    rcases hval : validate_sql_safety sql with ⟨b, msg⟩
    rw [hval] at hsafe
    simp only at hsafe
    rw [hsafe]
  have hmain : execute_sql_safely env sql db 1000 =
      match env.runQuery (pyStrip (pyRstripSemi sql) ++ " LIMIT 1000") db with
      | .error e =>
        { success := false, data := [], columns := [], row_count := 0,
          error := "SQLite 错误: " ++ e }
      | .ok (cols, rows) =>
        { success := true, data := rows, columns := cols,
          row_count := rows.length, error := "" } := by
    unfold execute_sql_safely
    rw [hdb]
    simp only [Bool.not_true, Bool.false_eq_true, if_neg, not_false_eq_true]
    rw [hv, hq]
  refine ⟨hmain, fun hs => ?_⟩
  rw [hmain] at hs ⊢
  rcases hrun : env.runQuery (pyStrip (pyRstripSemi sql) ++ " LIMIT 1000") db
    with e | ⟨cols, rows⟩
  · rw [hrun] at hs
    simp at hs
  · exact ⟨rfl, hbound cols rows hrun⟩

/-- A SQLite boundary over a one-column table, honouring `LIMIT`. -/
def sqlEnvOne : SqlEnv :=
  { dbExists := fun _ => true
    runQuery := fun _ _ => .ok (["a"], [[("a", "1")]]) }

/-- C10, witness: a concrete limit-free query on `sqlEnvOne` passes
validation, and its successful result has `row_count = 1 ≤ 1000`. -/
theorem c10_sql_limit_witness :
    (execute_sql_safely sqlEnvOne "select a from t;" "d.db" 1000).success
        = true ∧
      (execute_sql_safely sqlEnvOne "select a from t;" "d.db" 1000).row_count
        = 1 ∧
      (execute_sql_safely sqlEnvOne "select a from t;" "d.db" 1000).row_count
        ≤ 1000 := by
  have h := c10_sql_limit sqlEnvOne "select a from t;" "d.db" (by decide) rfl
    (by decide)
    (by
      intro cols rows hr
      simp only [sqlEnvOne, Except.ok.injEq, Prod.mk.injEq] at hr
      rw [← hr.2]
      decide)
  refine ⟨by decide, ?_, ?_⟩
  · rw [(h.2 (by decide)).1]
    decide
  · exact h.2 (by decide) |>.2

end DoDv2
